import Mathlib

/-!
A shallow embedding of gearmand's server thread module
(src/libgearman/server_thread.c) together with the submit-task test paths
(src/tests/task.cc).  Return codes, packets, connections and threads are
explicit data.  The external collaborators called by this module
(gearman_con_send, gearman_con_recv, gearman_server_run_command) live in
other translation units; each is modelled as a result oracle carried by the
connection and consumed in call order, so every definition here stays
executable and decidable.
-/

set_option autoImplicit false

/-- Return codes of gearman_return_t used by the embedded module.  The
constructor GEARMAN_OTHER_ERROR stands for every remaining error code of the
C enum (lost connection, pthread failure, ...). -/
inductive gearman_return_t
  | GEARMAN_SUCCESS
  | GEARMAN_IO_WAIT
  | GEARMAN_SHUTDOWN
  | GEARMAN_SHUTDOWN_GRACEFUL
  | GEARMAN_INVALID_ARGUMENT
  | GEARMAN_MEMORY_ALLOCATION_FAILURE
  | GEARMAN_OTHER_ERROR (code : Nat)
deriving DecidableEq

open gearman_return_t

/-- A wire packet; only the command id is relevant to server_thread.c. -/
structure gearman_packet_st where
  command : Nat
deriving DecidableEq

/-- Command id of NOOP in the gearman protocol. -/
def GEARMAN_COMMAND_NOOP : Nat := 6

/-- Boolean test used at server_thread.c:335
(io_packet_list->packet.command == GEARMAN_COMMAND_NOOP). -/
def isNoopPkt (p : gearman_packet_st) : Bool :=
  p.command == GEARMAN_COMMAND_NOOP

/-- One outcome of a gearman_con_recv call on a connection: either a complete
packet was assembled, or the call reported a non-success code.  Once a
connection's recv oracle is exhausted, further calls report GEARMAN_IO_WAIT
(the socket has no more bytes to give). -/
inductive recv_step
  | pkt (p : gearman_packet_st)
  | err (r : gearman_return_t)
deriving DecidableEq

/-- gearman_server_con_st: the per-connection state server_thread.c touches.
options_free / options_dead are the GEARMAN_SERVER_CON_FREE / _DEAD bits,
con_ret is the server_con->ret field written by the processing thread,
events_* is the gearman_con_st events mask and revents_* its returned poll
events, io_packet_list the outbound packet queue, proc_packet_list the
inbound (processing) packet queue, workers / clients the ids of the
connection's worker registrations and client job references.  recvs,
run_res and send_res are the oracles for gearman_con_recv,
gearman_server_run_command and gearman_con_send results, consumed in call
order (send_res by call index, default GEARMAN_SUCCESS). -/
structure gearman_server_con_st where
  id : Nat
  options_free : Bool
  options_dead : Bool
  con_ret : gearman_return_t
  events_pollin : Bool
  events_pollout : Bool
  revents_pollin : Bool
  revents_pollout : Bool
  io_packet_list : List gearman_packet_st
  noop_queued : Bool
  proc_packet_list : List gearman_packet_st
  workers : List Nat
  clients : List Nat
  recvs : List recv_step
  run_res : List gearman_return_t
  send_res : List gearman_return_t
deriving DecidableEq

/-- The n-th result of a send oracle; an exhausted oracle keeps succeeding. -/
def sendAt (send_res : List gearman_return_t) (n : Nat) : gearman_return_t :=
  send_res.getD n GEARMAN_SUCCESS

/-- The next result of a run oracle; an exhausted oracle succeeds. -/
def headOr (run_res : List gearman_return_t) : gearman_return_t :=
  run_res.headD GEARMAN_SUCCESS

/-- Result of the send loop of _thread_packet_flush: the return code, the
packets still queued, the final noop_queued flag, and the trace of packets
that were successfully sent, in send order. -/
structure FlushLoopOut where
  ret : gearman_return_t
  remaining : List gearman_packet_st
  noop_queued : Bool
  sent : List gearman_packet_st
deriving DecidableEq

/-- The while loop of _thread_packet_flush (server_thread.c:326-339): send
the head packet; on a non-success result stop with that result and the
queue unchanged from this point; on success clear noop_queued if the packet
was a NOOP, remove the packet and continue.  n is the index into the send
oracle. -/
def flushLoop (send_res : List gearman_return_t) :
    List gearman_packet_st → Nat → Bool → FlushLoopOut
  | [], _, nq => ⟨GEARMAN_SUCCESS, [], nq, []⟩
  | p :: rest, n, nq =>
    let r := sendAt send_res n
    if r = GEARMAN_SUCCESS then
      let nq' := if isNoopPkt p then false else nq
      let o := flushLoop send_res rest (n + 1) nq'
      ⟨o.ret, o.remaining, o.noop_queued, p :: o.sent⟩
    else
      ⟨r, p :: rest, nq, []⟩

/-- Result of _thread_packet_flush: return code, updated connection, and
the trace of packets sent. -/
structure FlushOut where
  ret : gearman_return_t
  con : gearman_server_con_st
  sent : List gearman_packet_st
deriving DecidableEq

/-- _thread_packet_flush (server_thread.c:318-343).  If the events mask
already has POLLOUT, return GEARMAN_IO_WAIT without touching anything
(line 323).  Otherwise run the send loop; when the queue fully drains,
gearman_con_set_events(con, POLLIN) resets the events mask to POLLIN alone
(line 342, modelled as always succeeding since the watch callback is
external). -/
def thread_packet_flush (con : gearman_server_con_st) : FlushOut :=
  if con.events_pollout then ⟨GEARMAN_IO_WAIT, con, []⟩
  else
    let o := flushLoop con.send_res con.io_packet_list 0 con.noop_queued
    let con' := { con with io_packet_list := o.remaining, noop_queued := o.noop_queued }
    if o.remaining = [] then
      ⟨o.ret, { con' with events_pollin := true, events_pollout := false }, o.sent⟩
    else
      ⟨o.ret, con', o.sent⟩

/-- Result of the read loop of _thread_packet_read: return code, the final
inbound processing queue, the trace of packets run inline (single-threaded
mode), and the unconsumed parts of the recv and run oracles. -/
structure ReadLoopOut where
  ret : gearman_return_t
  proc_list : List gearman_packet_st
  ran : List gearman_packet_st
  recvs_left : List recv_step
  run_left : List gearman_return_t
deriving DecidableEq

/-- The while(1) loop of _thread_packet_read (server_thread.c:275-315).
Each gearman_con_recv outcome comes from the recv oracle; an exhausted
oracle behaves like GEARMAN_IO_WAIT, which breaks the loop and makes the
function return GEARMAN_SUCCESS (line 289-290, 315); any other non-success
recv result is returned as is (line 292).  On a complete packet: with
thread_count equal to 1 the command is run inline (line 296-306, result
from the run oracle) and a non-success run result is returned; otherwise
the packet is appended to the connection's processing queue
(gearman_server_proc_packet_add, line 310).  Packet allocation
(gearman_server_packet_create, line 279) is modelled as always succeeding:
it pops a thread-local free list. -/
def readLoop (thread_count : Nat) :
    List recv_step → List gearman_return_t → List gearman_packet_st → ReadLoopOut
  | [], runs, procQ => ⟨GEARMAN_SUCCESS, procQ, [], [], runs⟩
  | recv_step.err r :: rest, runs, procQ =>
    if r = GEARMAN_IO_WAIT then ⟨GEARMAN_SUCCESS, procQ, [], rest, runs⟩
    else ⟨r, procQ, [], rest, runs⟩
  | recv_step.pkt p :: rest, runs, procQ =>
    if thread_count = 1 then
      let r := headOr runs
      if r = GEARMAN_SUCCESS then
        let o := readLoop thread_count rest runs.tail procQ
        ⟨o.ret, o.proc_list, p :: o.ran, o.recvs_left, o.run_left⟩
      else
        ⟨r, procQ, [p], rest, runs.tail⟩
    else
      let o := readLoop thread_count rest runs (procQ ++ [p])
      ⟨o.ret, o.proc_list, o.ran, o.recvs_left, o.run_left⟩

/-- Result of _thread_packet_read: return code, updated connection and the
trace of packets whose command was run inline. -/
structure ReadOut where
  ret : gearman_return_t
  con : gearman_server_con_st
  ran : List gearman_packet_st
deriving DecidableEq

/-- _thread_packet_read (server_thread.c:271-316) on a connection. -/
def thread_packet_read (thread_count : Nat) (con : gearman_server_con_st) : ReadOut :=
  let o := readLoop thread_count con.recvs con.run_res con.proc_packet_list
  let con' := { con with proc_packet_list := o.proc_list,
                         recvs := o.recvs_left, run_res := o.run_left }
  ⟨o.ret, con', o.ran⟩

/-- The complete packets a recv oracle yields before its first non-success
outcome: exactly the packets the read loop of _thread_packet_read can see. -/
def recv_complete_packets : List recv_step → List gearman_packet_st
  | [] => []
  | recv_step.err _ :: _ => []
  | recv_step.pkt p :: rest => p :: recv_complete_packets rest

/-- The decision at server_thread.c:67: gearman_server_thread_create starts
the processing thread exactly when the server's thread count, before this
thread is added to the server's list (GEARMAN_LIST_ADD runs later, line
98), equals 1 - that is, when the server is becoming multi-threaded. -/
def server_thread_create_starts_proc (thread_count : Nat) : Bool :=
  thread_count == 1

/-- Result of one connection-list phase of gearman_server_thread_run:
early is the (return code, connection id) pair when the phase returned a
connection to the caller, none when the phase ran to completion; cons are
the surviving connections with their updated state, freed the ids of
connections handed to gearman_server_con_free, and sent the
(connection id, packet) trace of every packet sent. -/
structure PhaseOut where
  early : Option (gearman_return_t × Nat)
  cons : List gearman_server_con_st
  freed : List Nat
  sent : List (Nat × gearman_packet_st)
deriving DecidableEq

/-- The multi-threaded io-list loop of gearman_server_thread_run
(server_thread.c:194-212): for each connection popped from the io-ready
list, a connection with the GEARMAN_SERVER_CON_FREE bit is freed and
skipped (line 196-200); a connection whose ret field is not
GEARMAN_SUCCESS is returned with that code (line 202-206); otherwise the
connection is flushed, and a flush result other than GEARMAN_SUCCESS or
GEARMAN_IO_WAIT returns the connection (line 209-211). -/
def run_io_list_multi : List gearman_server_con_st → PhaseOut
  | [] => ⟨none, [], [], []⟩
  | con :: rest =>
    if con.options_free then
      let o := run_io_list_multi rest
      ⟨o.early, o.cons, con.id :: o.freed, o.sent⟩
    else if con.con_ret ≠ GEARMAN_SUCCESS then
      ⟨some (con.con_ret, con.id), con :: rest, [], []⟩
    else
      let f := thread_packet_flush con
      if f.ret ≠ GEARMAN_SUCCESS ∧ f.ret ≠ GEARMAN_IO_WAIT then
        ⟨some (f.ret, con.id), f.con :: rest, [], f.sent.map (fun p => (con.id, p))⟩
      else
        let o := run_io_list_multi rest
        ⟨o.early, f.con :: o.cons, o.freed, f.sent.map (fun p => (con.id, p)) ++ o.sent⟩

/-- The POLLIN half of the gearman_con_ready loop body
(server_thread.c:224-229): read only when poll reported readability. -/
def con_ready_read (thread_count : Nat) (con : gearman_server_con_st) : ReadOut :=
  if con.revents_pollin then thread_packet_read thread_count con
  else ⟨GEARMAN_SUCCESS, con, []⟩

/-- The POLLOUT half of the gearman_con_ready loop body
(server_thread.c:232-237): flush only when poll reported writability;
the connection state comes from the read half. -/
def con_ready_flush (con r1con : gearman_server_con_st) : FlushOut :=
  if con.revents_pollout then thread_packet_flush r1con
  else ⟨GEARMAN_SUCCESS, r1con, []⟩

/-- The gearman_con_ready loop of gearman_server_thread_run
(server_thread.c:216-238): for each connection poll reported ready, read
while POLLIN is in revents and return the connection on a read result
other than GEARMAN_SUCCESS or GEARMAN_IO_WAIT (line 224-229), then flush
while POLLOUT is in revents with the same early-return rule
(line 232-237). -/
def run_con_ready_loop (thread_count : Nat) : List gearman_server_con_st → PhaseOut
  | [] => ⟨none, [], [], []⟩
  | con :: rest =>
    let r1 := con_ready_read thread_count con
    if r1.ret ≠ GEARMAN_SUCCESS ∧ r1.ret ≠ GEARMAN_IO_WAIT then
      ⟨some (r1.ret, con.id), r1.con :: rest, [], []⟩
    else
      let r2 := con_ready_flush con r1.con
      if r2.ret ≠ GEARMAN_SUCCESS ∧ r2.ret ≠ GEARMAN_IO_WAIT then
        ⟨some (r2.ret, con.id), r2.con :: rest, [], r2.sent.map (fun p => (con.id, p))⟩
      else
        let o := run_con_ready_loop thread_count rest
        ⟨o.early, r2.con :: o.cons, o.freed, r2.sent.map (fun p => (con.id, p)) ++ o.sent⟩

/-- The single-threaded io-list loop of gearman_server_thread_run
(server_thread.c:241-249): flush each connection popped from the io-ready
list, returning the connection on a flush result other than
GEARMAN_SUCCESS or GEARMAN_IO_WAIT. -/
def run_io_list_single : List gearman_server_con_st → PhaseOut
  | [] => ⟨none, [], [], []⟩
  | con :: rest =>
    let f := thread_packet_flush con
    if f.ret ≠ GEARMAN_SUCCESS ∧ f.ret ≠ GEARMAN_IO_WAIT then
      ⟨some (f.ret, con.id), f.con :: rest, [], f.sent.map (fun p => (con.id, p))⟩
    else
      let o := run_io_list_single rest
      ⟨o.early, f.con :: o.cons, o.freed, f.sent.map (fun p => (con.id, p)) ++ o.sent⟩

/-- gearman_server_thread_st plus the server fields gearman_server_thread_run
reads: the server's thread count, shutdown flags and job count, the
thread's io-ready list, and the connections gearman_con_ready will yield
(each carrying its revents). -/
structure gearman_server_thread_st where
  thread_count : Nat
  io_ready : List gearman_server_con_st
  con_ready : List gearman_server_con_st
  shutdown : Bool
  shutdown_graceful : Bool
  job_count : Nat
deriving DecidableEq

/-- Result of gearman_server_thread_run: the value stored in *ret_ptr, the
id of the returned connection (none when the function returned NULL), the
final io-list and ready-list connection states, the freed connection ids
and the full send trace. -/
structure RunOut where
  ret : gearman_return_t
  ret_con : Option Nat
  io_cons : List gearman_server_con_st
  ready_cons : List gearman_server_con_st
  freed : List Nat
  sent : List (Nat × gearman_packet_st)
deriving DecidableEq

/-- The guarded first phase of gearman_server_thread_run: the io-ready
drain runs only with more than one thread (server_thread.c:192). -/
def run_phase1 (t : gearman_server_thread_st) : PhaseOut :=
  if 1 < t.thread_count then run_io_list_multi t.io_ready
  else ⟨none, t.io_ready, [], []⟩

/-- The guarded last phase of gearman_server_thread_run: the io-ready
drain runs only with a single thread (server_thread.c:241). -/
def run_phase3 (thread_count : Nat) (cons1 : List gearman_server_con_st) : PhaseOut :=
  if thread_count = 1 then run_io_list_single cons1
  else ⟨none, cons1, [], []⟩

/-- gearman_server_thread_run (server_thread.c:183-265): with more than one
thread, drain the io-ready list first (line 192-213); then handle every
connection poll reported ready (line 216-238); with a single thread, drain
the io-ready list last (line 241-249); finally the shutdown check
(line 251-264): shutdown gives GEARMAN_SHUTDOWN, otherwise
shutdown_graceful gives GEARMAN_SHUTDOWN with no jobs left and
GEARMAN_SHUTDOWN_GRACEFUL with jobs left, otherwise GEARMAN_SUCCESS; the
function then returns NULL. -/
def gearman_server_thread_run (t : gearman_server_thread_st) : RunOut :=
  match (run_phase1 t).early with
  | some rc =>
    ⟨rc.1, some rc.2, (run_phase1 t).cons, t.con_ready, (run_phase1 t).freed,
     (run_phase1 t).sent⟩
  | none =>
    match (run_con_ready_loop t.thread_count t.con_ready).early with
    | some rc =>
      ⟨rc.1, some rc.2, (run_phase1 t).cons,
       (run_con_ready_loop t.thread_count t.con_ready).cons, (run_phase1 t).freed,
       (run_phase1 t).sent ++ (run_con_ready_loop t.thread_count t.con_ready).sent⟩
    | none =>
      match (run_phase3 t.thread_count (run_phase1 t).cons).early with
      | some rc =>
        ⟨rc.1, some rc.2, (run_phase3 t.thread_count (run_phase1 t).cons).cons,
         (run_con_ready_loop t.thread_count t.con_ready).cons,
         (run_phase1 t).freed ++ (run_phase3 t.thread_count (run_phase1 t).cons).freed,
         (run_phase1 t).sent ++ (run_con_ready_loop t.thread_count t.con_ready).sent ++
           (run_phase3 t.thread_count (run_phase1 t).cons).sent⟩
      | none =>
        ⟨(if t.shutdown then GEARMAN_SHUTDOWN
          else if t.shutdown_graceful then
            (if t.job_count = 0 then GEARMAN_SHUTDOWN else GEARMAN_SHUTDOWN_GRACEFUL)
          else GEARMAN_SUCCESS),
         none, (run_phase3 t.thread_count (run_phase1 t).cons).cons,
         (run_con_ready_loop t.thread_count t.con_ready).cons,
         (run_phase1 t).freed ++ (run_phase3 t.thread_count (run_phase1 t).cons).freed,
         (run_phase1 t).sent ++ (run_con_ready_loop t.thread_count t.con_ready).sent ++
           (run_phase3 t.thread_count (run_phase1 t).cons).sent⟩

/-- Outcome of the wait block at the top of an outer iteration of the
processing thread _proc (server_thread.c:396-408): proceed past the wait
loop into the processing pass, return from the thread, or wait on the
condition variable. -/
inductive proc_wait_outcome
  | proceed
  | exit_thread
  | block
deriving DecidableEq

/-- The wait block of _proc (server_thread.c:397-406), evaluated at the
state holding when the lock is taken: while proc_wakeup is false, return
if proc_shutdown is set, else wait on proc_cond.  With proc_wakeup already
true, the loop body - and with it the proc_shutdown check - never runs and
the iteration proceeds to the processing pass. -/
def proc_wait_check (proc_wakeup proc_shutdown : Bool) : proc_wait_outcome :=
  if proc_wakeup = false then
    if proc_shutdown then proc_wait_outcome.exit_thread
    else proc_wait_outcome.block
  else proc_wait_outcome.proceed

/-- The packet loop of _proc on one live connection
(server_thread.c:426-435): pop every processing packet, run its command
(result from the run oracle) and store the result in the connection's ret
field; the loop never exits early.  Yields (final ret field, unconsumed
run oracle, trace of packets run). -/
def proc_run_loop :
    List gearman_packet_st → List gearman_return_t → gearman_return_t →
    gearman_return_t × List gearman_return_t × List gearman_packet_st
  | [], runs, cur => (cur, runs, [])
  | p :: rest, runs, _ =>
    let o := proc_run_loop rest runs.tail (headOr runs)
    (o.1, o.2.1, p :: o.2.2)

/-- Result of the processing thread's handling of one connection popped
from proc-ready: the updated connection, whether the connection was put
back on the io-ready list (gearman_server_con_io_add), and the trace of
packets whose command was run. -/
structure ProcHandleOut where
  con : gearman_server_con_st
  io_added : Bool
  ran : List gearman_packet_st
deriving DecidableEq

/-- The per-connection body of _proc's processing pass
(server_thread.c:412-436): a connection with the GEARMAN_SERVER_CON_DEAD
bit has its worker registrations freed (gearman_server_con_free_workers)
and its client job references freed, gets the GEARMAN_SERVER_CON_FREE bit,
is flagged back onto the io-ready list, and none of its pending processing
packets is run (line 414-424); otherwise every processing packet is popped
and its command run (line 426-435). -/
def proc_handle_con (con : gearman_server_con_st) : ProcHandleOut :=
  if con.options_dead then
    ⟨{ con with workers := [], clients := [], options_free := true }, true, []⟩
  else
    let o := proc_run_loop con.proc_packet_list con.run_res con.con_ret
    ⟨{ con with proc_packet_list := [], run_res := o.2.1, con_ret := o.1 }, false, o.2.2⟩

/-- The client task-submission entry points of libgearman exercised by
src/tests/task.cc. -/
inductive submit_entry
  | add_task
  | add_task_background
  | add_task_high
  | add_task_high_background
  | add_task_low
  | add_task_low_background
deriving DecidableEq

/-- The entry point the submission call of
gearman_client_add_task_low_background_test invokes (src/tests/task.cc:230):
the test named low background calls gearman_client_add_task_high_background. -/
def low_background_test_entry : submit_entry :=
  submit_entry.add_task_high_background

/-- The entry point the submission call of
gearman_client_add_task_high_background_test invokes (src/tests/task.cc:205). -/
def high_background_test_entry : submit_entry :=
  submit_entry.add_task_high_background

/-- The entry point the submission call of
gearman_client_add_task_background_test invokes (src/tests/task.cc:180). -/
def background_test_entry : submit_entry :=
  submit_entry.add_task_background

/-- A created task, as far as the submission model needs it. -/
structure gearman_task_model where
  function_name : String
  workload_size : Nat
deriving DecidableEq

/-- The client-side model state a submission may extend: the list of
created tasks. -/
structure client_model where
  tasks : List gearman_task_model
deriving DecidableEq

/-- Modelled from the spec: the body of gearman_client_add_task is not under
src/ (only its test, src/tests/task.cc:105-129, is).  Following spec
section 4.3 (SUBMIT_JOB): validate a non-empty function name and that the
workload pointer and length agree - both null/zero or both non-null/
non-zero - else fail with GEARMAN_INVALID_ARGUMENT creating no task and
leaving the model unchanged; on success create the task and append it. -/
def gearman_client_add_task (m : client_model) (function_name : String)
    (workload_is_null : Bool) (workload_size : Nat) :
    gearman_return_t × Option gearman_task_model × client_model :=
  if function_name.isEmpty then (GEARMAN_INVALID_ARGUMENT, none, m)
  else if !((workload_is_null && workload_size == 0) ||
            (!workload_is_null && !(workload_size == 0))) then
    (GEARMAN_INVALID_ARGUMENT, none, m)
  else
    let t : gearman_task_model := ⟨function_name, workload_size⟩
    (GEARMAN_SUCCESS, some t, ⟨m.tasks ++ [t]⟩)

/-- A NOOP packet and an ordinary reply packet, used as concrete inputs. -/
def pktNoop : gearman_packet_st := ⟨GEARMAN_COMMAND_NOOP⟩

/-- A JOB_ASSIGN packet (command id 11), used as a concrete input. -/
def pktAssign : gearman_packet_st := ⟨11⟩

/-- A concrete connection with a NOOP and a JOB_ASSIGN queued outbound, the
noop_queued flag set, POLLIN watched and every send succeeding. -/
def flushConEx : gearman_server_con_st :=
  ⟨7, false, false, GEARMAN_SUCCESS, true, false, false, false,
   [pktNoop, pktAssign], true, [], [], [], [], [], []⟩

/-- The same connection with POLLOUT already asserted. -/
def pollOutConEx : gearman_server_con_st :=
  { flushConEx with events_pollout := true }

/-!
Theorems.  Helper lemmas about the loops come first, then one theorem per
claim with its witness.
-/

theorem flushLoop_append (send_res : List gearman_return_t) :
    ∀ (q : List gearman_packet_st) (n : Nat) (nq : Bool),
      (flushLoop send_res q n nq).sent ++ (flushLoop send_res q n nq).remaining = q := by
  intro q
  induction q with
  | nil => intro n nq; simp [flushLoop]
  | cons p rest ih =>
    intro n nq
    by_cases hr : sendAt send_res n = GEARMAN_SUCCESS
    · simp [flushLoop, hr, ih]
    · simp [flushLoop, hr]

theorem flushLoop_sent_ok (send_res : List gearman_return_t) :
    ∀ (q : List gearman_packet_st) (n : Nat) (nq : Bool) (i : Nat),
      i < (flushLoop send_res q n nq).sent.length →
      sendAt send_res (n + i) = GEARMAN_SUCCESS := by
  intro q
  induction q with
  | nil => intro n nq i hi; simp [flushLoop] at hi
  | cons p rest ih =>
    intro n nq i hi
    by_cases hr : sendAt send_res n = GEARMAN_SUCCESS
    · simp only [flushLoop, if_pos hr] at hi
      match i with
      | 0 => simpa using hr
      | j + 1 =>
        have hj : j < (flushLoop send_res rest (n + 1)
            (if isNoopPkt p then false else nq)).sent.length := by
          simpa using hi
        have hrec := ih (n + 1) (if isNoopPkt p then false else nq) j hj
        have hadd : n + (j + 1) = (n + 1) + j := by omega
        rw [hadd]
        exact hrec
    · simp [flushLoop, hr] at hi

theorem flushLoop_drained (send_res : List gearman_return_t) :
    ∀ (q : List gearman_packet_st) (n : Nat) (nq : Bool),
      (flushLoop send_res q n nq).remaining = [] →
      (flushLoop send_res q n nq).ret = GEARMAN_SUCCESS := by
  intro q
  induction q with
  | nil => intro n nq _; simp [flushLoop]
  | cons p rest ih =>
    intro n nq hrem
    by_cases hr : sendAt send_res n = GEARMAN_SUCCESS
    · simp only [flushLoop, if_pos hr] at hrem ⊢
      exact ih (n + 1) (if isNoopPkt p then false else nq) hrem
    · simp [flushLoop, hr] at hrem

theorem flushLoop_fail (send_res : List gearman_return_t) :
    ∀ (q : List gearman_packet_st) (n : Nat) (nq : Bool),
      (flushLoop send_res q n nq).remaining ≠ [] →
      (flushLoop send_res q n nq).ret =
        sendAt send_res (n + (flushLoop send_res q n nq).sent.length) ∧
      (flushLoop send_res q n nq).ret ≠ GEARMAN_SUCCESS := by
  intro q
  induction q with
  | nil => intro n nq hrem; simp [flushLoop] at hrem
  | cons p rest ih =>
    intro n nq hrem
    by_cases hr : sendAt send_res n = GEARMAN_SUCCESS
    · simp only [flushLoop, if_pos hr] at hrem ⊢
      have hrec := ih (n + 1) (if isNoopPkt p then false else nq) hrem
      constructor
      · rw [hrec.1]
        simp only [List.length_cons]
        congr 1
        omega
      · exact hrec.2
    · simp only [flushLoop, if_neg hr]
      exact ⟨by simp, hr⟩

theorem flushLoop_noop (send_res : List gearman_return_t) :
    ∀ (q : List gearman_packet_st) (n : Nat) (nq : Bool),
      (flushLoop send_res q n nq).noop_queued =
        (nq && !((flushLoop send_res q n nq).sent.any isNoopPkt)) := by
  intro q
  induction q with
  | nil => intro n nq; simp [flushLoop]
  | cons p rest ih =>
    intro n nq
    by_cases hr : sendAt send_res n = GEARMAN_SUCCESS
    · by_cases hn : isNoopPkt p
      · simp [flushLoop, hr, hn, ih]
      · simp [flushLoop, hr, hn, ih]
    · simp [flushLoop, hr]

theorem flush_eq_pollout (con : gearman_server_con_st) (h : con.events_pollout = true) :
    thread_packet_flush con = ⟨GEARMAN_IO_WAIT, con, []⟩ := by
  simp [thread_packet_flush, h]

theorem flush_eq_drained (con : gearman_server_con_st) (h : con.events_pollout = false)
    (hrem : (flushLoop con.send_res con.io_packet_list 0 con.noop_queued).remaining = []) :
    thread_packet_flush con =
      ⟨(flushLoop con.send_res con.io_packet_list 0 con.noop_queued).ret,
       { con with io_packet_list := [],
                  noop_queued :=
                    (flushLoop con.send_res con.io_packet_list 0 con.noop_queued).noop_queued,
                  events_pollin := true, events_pollout := false },
       (flushLoop con.send_res con.io_packet_list 0 con.noop_queued).sent⟩ := by
  simp [thread_packet_flush, h, hrem]

theorem flush_eq_blocked (con : gearman_server_con_st) (h : con.events_pollout = false)
    (hrem : (flushLoop con.send_res con.io_packet_list 0 con.noop_queued).remaining ≠ []) :
    thread_packet_flush con =
      ⟨(flushLoop con.send_res con.io_packet_list 0 con.noop_queued).ret,
       { con with io_packet_list :=
                    (flushLoop con.send_res con.io_packet_list 0 con.noop_queued).remaining,
                  noop_queued :=
                    (flushLoop con.send_res con.io_packet_list 0 con.noop_queued).noop_queued },
       (flushLoop con.send_res con.io_packet_list 0 con.noop_queued).sent⟩ := by
  simp [thread_packet_flush, h, hrem]

/-- Claim C1: for a connection whose outbound queue is non-empty and whose
events mask does not yet carry POLLOUT, _thread_packet_flush sends queued
packets head-first (the sent trace followed by the surviving queue is the
original queue, and every sent packet's send succeeded), stops with the
first non-success send result as its return value leaving the events mask
untouched, and resets the events mask to POLLIN alone, returning
GEARMAN_SUCCESS, exactly when the queue fully drained. -/
theorem thread_packet_flush_drains_in_order (con : gearman_server_con_st)
    (_hq : con.io_packet_list ≠ []) (h : con.events_pollout = false) :
    (thread_packet_flush con).sent ++ (thread_packet_flush con).con.io_packet_list
        = con.io_packet_list ∧
    (∀ i, i < (thread_packet_flush con).sent.length →
      sendAt con.send_res i = GEARMAN_SUCCESS) ∧
    ((thread_packet_flush con).con.io_packet_list = [] →
      (thread_packet_flush con).ret = GEARMAN_SUCCESS ∧
      (thread_packet_flush con).con.events_pollin = true ∧
      (thread_packet_flush con).con.events_pollout = false) ∧
    ((thread_packet_flush con).con.io_packet_list ≠ [] →
      (thread_packet_flush con).ret = sendAt con.send_res (thread_packet_flush con).sent.length ∧
      (thread_packet_flush con).ret ≠ GEARMAN_SUCCESS ∧
      (thread_packet_flush con).con.events_pollin = con.events_pollin ∧
      (thread_packet_flush con).con.events_pollout = con.events_pollout) := by
  have hA := flushLoop_append con.send_res con.io_packet_list 0 con.noop_queued
  have hB := flushLoop_sent_ok con.send_res con.io_packet_list 0 con.noop_queued
  by_cases hrem : (flushLoop con.send_res con.io_packet_list 0 con.noop_queued).remaining = []
  · rw [flush_eq_drained con h hrem]
    rw [hrem] at hA
    refine ⟨by simpa using hA, ?_, fun _ => ⟨flushLoop_drained _ _ _ _ hrem, rfl, rfl⟩,
            fun hc => absurd rfl hc⟩
    intro i hi
    simpa using hB i hi
  · rw [flush_eq_blocked con h hrem]
    have hD := flushLoop_fail con.send_res con.io_packet_list 0 con.noop_queued hrem
    refine ⟨hA, ?_, fun hc => absurd hc hrem, fun _ => ⟨by simpa using hD.1, hD.2, rfl, rfl⟩⟩
    intro i hi
    simpa using hB i hi

/-- Claim C1 witness: on the concrete connection flushConEx the hypotheses
hold and the flush fully drains. -/
theorem thread_packet_flush_drains_in_order_witness :
    (thread_packet_flush flushConEx).con.io_packet_list = [] ∧
    (thread_packet_flush flushConEx).ret = GEARMAN_SUCCESS ∧
    (thread_packet_flush flushConEx).con.events_pollin = true ∧
    (thread_packet_flush flushConEx).con.events_pollout = false := by
  have h := thread_packet_flush_drains_in_order flushConEx (by decide) (by decide)
  have hnil : (thread_packet_flush flushConEx).con.io_packet_list = [] := by decide
  exact ⟨hnil, h.2.2.1 hnil⟩

/-- Claim C10: a connection whose events mask already carries POLLOUT makes
_thread_packet_flush return GEARMAN_IO_WAIT at once, with no send attempted
and the connection - outbound queue, noop_queued flag and events mask -
unchanged. -/
theorem thread_packet_flush_pollout_short_circuit (con : gearman_server_con_st)
    (h : con.events_pollout = true) :
    thread_packet_flush con = ⟨GEARMAN_IO_WAIT, con, []⟩ :=
  flush_eq_pollout con h

/-- Claim C10 witness: the short circuit on the concrete connection
pollOutConEx. -/
theorem thread_packet_flush_pollout_short_circuit_witness :
    thread_packet_flush pollOutConEx = ⟨GEARMAN_IO_WAIT, pollOutConEx, []⟩ :=
  thread_packet_flush_pollout_short_circuit pollOutConEx (by decide)

/-- Claim C5: whenever _thread_packet_flush successfully sends a NOOP
packet, the connection's noop_queued flag ends up false, preserving the
invariant tying noop_queued to a NOOP in the outbound queue. -/
theorem thread_packet_flush_noop_clears_queued (con : gearman_server_con_st)
    (h : (thread_packet_flush con).sent.any isNoopPkt = true) :
    (thread_packet_flush con).con.noop_queued = false := by
  have hn := flushLoop_noop con.send_res con.io_packet_list 0 con.noop_queued
  by_cases hp : con.events_pollout = true
  · rw [flush_eq_pollout con hp] at h
    simp at h
  · rw [Bool.not_eq_true] at hp
    by_cases hrem : (flushLoop con.send_res con.io_packet_list 0 con.noop_queued).remaining = []
    · rw [flush_eq_drained con hp hrem] at h ⊢
      dsimp only at h ⊢
      rw [hn]
      simp [h]
    · rw [flush_eq_blocked con hp hrem] at h ⊢
      dsimp only at h ⊢
      rw [hn]
      simp [h]

/-- Claim C5 witness: flushing flushConEx sends its NOOP and clears the
noop_queued flag. -/
theorem thread_packet_flush_noop_clears_queued_witness :
    (thread_packet_flush flushConEx).con.noop_queued = false :=
  thread_packet_flush_noop_clears_queued flushConEx (by decide)

theorem readLoop_multi (thread_count : Nat) (h : thread_count ≠ 1) :
    ∀ (recvs : List recv_step) (runs : List gearman_return_t)
      (procQ : List gearman_packet_st),
      (readLoop thread_count recvs runs procQ).ran = [] ∧
      (readLoop thread_count recvs runs procQ).proc_list
        = procQ ++ recv_complete_packets recvs := by
  intro recvs
  induction recvs with
  | nil => intro runs procQ; simp [readLoop, recv_complete_packets]
  | cons s rest ih =>
    intro runs procQ
    cases s with
    | err r =>
      by_cases hw : r = GEARMAN_IO_WAIT
      · simp [readLoop, hw, recv_complete_packets]
      · simp [readLoop, hw, recv_complete_packets]
    | pkt p =>
      have hrec := ih runs (procQ ++ [p])
      simp [readLoop, h, recv_complete_packets, hrec.1, hrec.2]

theorem readLoop_single_proc :
    ∀ (recvs : List recv_step) (runs : List gearman_return_t)
      (procQ : List gearman_packet_st),
      (readLoop 1 recvs runs procQ).proc_list = procQ := by
  intro recvs
  induction recvs with
  | nil => intro runs procQ; simp [readLoop]
  | cons s rest ih =>
    intro runs procQ
    cases s with
    | err r => by_cases hw : r = GEARMAN_IO_WAIT <;> simp [readLoop, hw]
    | pkt p =>
      by_cases hr : headOr runs = GEARMAN_SUCCESS
      · simp [readLoop, hr, ih]
      · simp [readLoop, hr]

theorem readLoop_single_ran_all :
    ∀ (recvs : List recv_step) (runs : List gearman_return_t)
      (procQ : List gearman_packet_st),
      (∀ r ∈ runs, r = GEARMAN_SUCCESS) →
      (readLoop 1 recvs runs procQ).ran = recv_complete_packets recvs := by
  intro recvs
  induction recvs with
  | nil => intro runs procQ _; simp [readLoop, recv_complete_packets]
  | cons s rest ih =>
    intro runs procQ hall
    cases s with
    | err r =>
      by_cases hw : r = GEARMAN_IO_WAIT <;> simp [readLoop, hw, recv_complete_packets]
    | pkt p =>
      have hr : headOr runs = GEARMAN_SUCCESS := by
        cases runs with
        | nil => simp [headOr]
        | cons a as => simpa [headOr] using hall a (by simp)
      have htail : ∀ r ∈ runs.tail, r = GEARMAN_SUCCESS := by
        intro r hrr
        exact hall r (List.mem_of_mem_tail hrr)
      simp [readLoop, hr, recv_complete_packets, ih runs.tail procQ htail]

/-- Claim C3: with a single server thread, _thread_packet_read runs every
complete inbound packet inline (when the inline commands succeed, the run
trace is exactly the readable complete packets) and never touches the
connection's processing queue; with more than one thread it runs nothing
inline and instead appends every complete inbound packet to the
connection's processing queue, in arrival order; and
gearman_server_thread_create starts the separate processing thread only on
the create call that makes the server multi-threaded (prior thread count 1),
not on the first create call (prior thread count 0). -/
theorem thread_packet_read_dispatch (thread_count : Nat) (con : gearman_server_con_st) :
    (thread_count = 1 →
      (thread_packet_read thread_count con).con.proc_packet_list = con.proc_packet_list ∧
      ((∀ r ∈ con.run_res, r = GEARMAN_SUCCESS) →
        (thread_packet_read thread_count con).ran = recv_complete_packets con.recvs)) ∧
    (thread_count ≠ 1 →
      (thread_packet_read thread_count con).ran = [] ∧
      (thread_packet_read thread_count con).con.proc_packet_list
        = con.proc_packet_list ++ recv_complete_packets con.recvs) ∧
    server_thread_create_starts_proc 0 = false ∧
    server_thread_create_starts_proc 1 = true := by
  refine ⟨?_, ?_, by decide, by decide⟩
  · intro h1
    subst h1
    constructor
    · simpa [thread_packet_read] using
        readLoop_single_proc con.recvs con.run_res con.proc_packet_list
    · intro hall
      simpa [thread_packet_read] using
        readLoop_single_ran_all con.recvs con.run_res con.proc_packet_list hall
  · intro h1
    have hrec := readLoop_multi thread_count h1 con.recvs con.run_res con.proc_packet_list
    exact ⟨by simpa [thread_packet_read] using hrec.1,
           by simpa [thread_packet_read] using hrec.2⟩

/-- A connection that will read one complete JOB_ASSIGN packet and then hit
a connection error. -/
def readConEx : gearman_server_con_st :=
  { flushConEx with io_packet_list := [],
                    recvs := [recv_step.pkt pktAssign,
                              recv_step.err (GEARMAN_OTHER_ERROR 26)] }

/-- Claim C3 witness: with two server threads, reading readConEx queues its
complete packet for the processing thread and runs nothing inline. -/
theorem thread_packet_read_dispatch_witness :
    (thread_packet_read 2 readConEx).ran = [] ∧
    (thread_packet_read 2 readConEx).con.proc_packet_list
      = readConEx.proc_packet_list ++ recv_complete_packets readConEx.recvs :=
  (thread_packet_read_dispatch 2 readConEx).2.1 (by decide)

theorem run_io_list_single_early :
    ∀ (l : List gearman_server_con_st) (r : gearman_return_t) (cid : Nat),
      (run_io_list_single l).early = some (r, cid) →
      r ≠ GEARMAN_IO_WAIT ∧ r ≠ GEARMAN_SUCCESS := by
  intro l
  induction l with
  | nil => intro r cid h; simp [run_io_list_single] at h
  | cons con rest ih =>
    intro r cid h
    simp only [run_io_list_single] at h
    split at h
    · rename_i hcond
      simp only [Option.some.injEq, Prod.mk.injEq] at h
      obtain ⟨rfl, rfl⟩ := h
      exact ⟨hcond.2, hcond.1⟩
    · exact ih r cid h

theorem run_con_ready_loop_early (thread_count : Nat) :
    ∀ (l : List gearman_server_con_st) (r : gearman_return_t) (cid : Nat),
      (run_con_ready_loop thread_count l).early = some (r, cid) →
      r ≠ GEARMAN_IO_WAIT ∧ r ≠ GEARMAN_SUCCESS := by
  intro l
  induction l with
  | nil => intro r cid h; simp [run_con_ready_loop] at h
  | cons con rest ih =>
    intro r cid h
    simp only [run_con_ready_loop] at h
    split at h
    · rename_i hcond
      simp only [Option.some.injEq, Prod.mk.injEq] at h
      obtain ⟨rfl, rfl⟩ := h
      exact ⟨hcond.2, hcond.1⟩
    · split at h
      · rename_i hcond
        simp only [Option.some.injEq, Prod.mk.injEq] at h
        obtain ⟨rfl, rfl⟩ := h
        exact ⟨hcond.2, hcond.1⟩
      · exact ih r cid h

theorem run_io_list_multi_early :
    ∀ (l : List gearman_server_con_st),
      (∀ c ∈ l, c.con_ret ≠ GEARMAN_IO_WAIT) →
      ∀ (r : gearman_return_t) (cid : Nat),
        (run_io_list_multi l).early = some (r, cid) →
        r ≠ GEARMAN_IO_WAIT ∧ r ≠ GEARMAN_SUCCESS := by
  intro l
  induction l with
  | nil => intro _ r cid h; simp [run_io_list_multi] at h
  | cons con rest ih =>
    intro hl r cid h
    have hrest : ∀ c ∈ rest, c.con_ret ≠ GEARMAN_IO_WAIT := by
      intro c hc
      exact hl c (by simp [hc])
    simp only [run_io_list_multi] at h
    split at h
    · simp only at h
      exact ih hrest r cid h
    · split at h
      · rename_i hcr
        simp only [Option.some.injEq, Prod.mk.injEq] at h
        obtain ⟨rfl, rfl⟩ := h
        exact ⟨hl con (by simp), hcr⟩
      · split at h
        · rename_i hcond
          simp only [Option.some.injEq, Prod.mk.injEq] at h
          obtain ⟨rfl, rfl⟩ := h
          exact ⟨hcond.2, hcond.1⟩
        · simp only at h
          exact ih hrest r cid h

theorem run_phase1_early (t : gearman_server_thread_st)
    (ht : ∀ c ∈ t.io_ready, c.con_ret ≠ GEARMAN_IO_WAIT) :
    ∀ (r : gearman_return_t) (cid : Nat),
      (run_phase1 t).early = some (r, cid) →
      r ≠ GEARMAN_IO_WAIT ∧ r ≠ GEARMAN_SUCCESS := by
  intro r cid h
  by_cases hm : 1 < t.thread_count
  · rw [run_phase1, if_pos hm] at h
    exact run_io_list_multi_early t.io_ready ht r cid h
  · rw [run_phase1, if_neg hm] at h
    simp at h

theorem run_phase3_early (thread_count : Nat) (cons1 : List gearman_server_con_st) :
    ∀ (r : gearman_return_t) (cid : Nat),
      (run_phase3 thread_count cons1).early = some (r, cid) →
      r ≠ GEARMAN_IO_WAIT ∧ r ≠ GEARMAN_SUCCESS := by
  intro r cid h
  by_cases hm : thread_count = 1
  · rw [run_phase3, if_pos hm] at h
    exact run_io_list_single_early cons1 r cid h
  · rw [run_phase3, if_neg hm] at h
    simp at h

/-- Claim C2: whenever gearman_server_thread_run returns NULL - so reaches
its final shutdown check - the reported code is GEARMAN_SHUTDOWN when the
server's shutdown flag is set; otherwise, with the graceful flag set, it is
GEARMAN_SHUTDOWN with zero jobs and GEARMAN_SHUTDOWN_GRACEFUL with jobs
remaining; otherwise GEARMAN_SUCCESS. -/
theorem thread_run_shutdown_check (t : gearman_server_thread_st)
    (h : (gearman_server_thread_run t).ret_con = none) :
    (gearman_server_thread_run t).ret =
      (if t.shutdown then GEARMAN_SHUTDOWN
       else if t.shutdown_graceful then
         (if t.job_count = 0 then GEARMAN_SHUTDOWN else GEARMAN_SHUTDOWN_GRACEFUL)
       else GEARMAN_SUCCESS) := by
  rcases hp1 : (run_phase1 t).early with _ | rc1
  · rcases hp2 : (run_con_ready_loop t.thread_count t.con_ready).early with _ | rc2
    · rcases hp3 : (run_phase3 t.thread_count (run_phase1 t).cons).early with _ | rc3
      · simp only [gearman_server_thread_run, hp1, hp2, hp3]
      · simp only [gearman_server_thread_run, hp1, hp2, hp3] at h
        simp at h
    · simp only [gearman_server_thread_run, hp1, hp2] at h
      simp at h
  · simp only [gearman_server_thread_run, hp1] at h
    simp at h

/-- A thread with nothing pending and graceful shutdown requested while two
jobs remain. -/
def gracefulThreadEx : gearman_server_thread_st :=
  ⟨1, [], [], false, true, 2⟩

/-- Claim C2 witness: on gracefulThreadEx the run completes and reports
GEARMAN_SHUTDOWN_GRACEFUL, since jobs remain. -/
theorem thread_run_shutdown_check_witness :
    (gearman_server_thread_run gracefulThreadEx).ret = GEARMAN_SHUTDOWN_GRACEFUL := by
  have h := thread_run_shutdown_check gracefulThreadEx (by decide)
  simpa [gracefulThreadEx] using h

/-- Claim C7: an io-wait (would-block) result from reading or flushing is
internal to gearman_server_thread_run: provided no connection on the
io-ready list carries an io-wait code in its ret field (that field is
written by the processing thread, not by reads or flushes), whenever the
run returns a connection to its caller the reported code is neither
GEARMAN_IO_WAIT nor GEARMAN_SUCCESS - io-wait makes the run continue with
the remaining connections instead. -/
theorem thread_run_never_returns_io_wait (t : gearman_server_thread_st)
    (ht : ∀ c ∈ t.io_ready, c.con_ret ≠ GEARMAN_IO_WAIT) :
    ∀ cid, (gearman_server_thread_run t).ret_con = some cid →
      (gearman_server_thread_run t).ret ≠ GEARMAN_IO_WAIT ∧
      (gearman_server_thread_run t).ret ≠ GEARMAN_SUCCESS := by
  intro cid hcid
  rcases hp1 : (run_phase1 t).early with _ | rc1
  · rcases hp2 : (run_con_ready_loop t.thread_count t.con_ready).early with _ | rc2
    · rcases hp3 : (run_phase3 t.thread_count (run_phase1 t).cons).early with _ | rc3
      · simp only [gearman_server_thread_run, hp1, hp2, hp3] at hcid
        simp at hcid
      · simp only [gearman_server_thread_run, hp1, hp2, hp3]
        exact run_phase3_early t.thread_count (run_phase1 t).cons rc3.1 rc3.2 hp3
    · simp only [gearman_server_thread_run, hp1, hp2]
      exact run_con_ready_loop_early t.thread_count t.con_ready rc2.1 rc2.2 hp2
  · simp only [gearman_server_thread_run, hp1]
    exact run_phase1_early t ht rc1.1 rc1.2 hp1

/-- A connection whose ret field carries a connection error, set by the
processing thread. -/
def errConEx : gearman_server_con_st :=
  { flushConEx with id := 9, io_packet_list := [], con_ret := GEARMAN_OTHER_ERROR 26 }

/-- A two-thread server state whose io-ready list holds errConEx. -/
def errThreadEx : gearman_server_thread_st :=
  ⟨2, [errConEx], [], false, false, 0⟩

/-- Claim C7 witness: errThreadEx returns connection 9 and the code is
neither io-wait nor success. -/
theorem thread_run_never_returns_io_wait_witness :
    (gearman_server_thread_run errThreadEx).ret ≠ GEARMAN_IO_WAIT ∧
    (gearman_server_thread_run errThreadEx).ret ≠ GEARMAN_SUCCESS :=
  thread_run_never_returns_io_wait errThreadEx (by decide) 9 (by decide)

/-- Claim C6: when the processing thread pops a dead connection from
proc-ready it frees the connection's worker registrations and client job
references, marks it free-pending, flags it back onto io-ready and runs
none of its pending processing packets; the io-ready loop of the owning
thread's next gearman_server_thread_run then frees a free-pending
connection - dropping it from the surviving connections and recording it
freed - without flushing it, returning it, or otherwise processing it. -/
theorem dead_con_teardown (con : gearman_server_con_st)
    (rest : List gearman_server_con_st) (h : con.options_dead = true) :
    (proc_handle_con con).con.workers = [] ∧
    (proc_handle_con con).con.clients = [] ∧
    (proc_handle_con con).con.options_free = true ∧
    (proc_handle_con con).io_added = true ∧
    (proc_handle_con con).ran = [] ∧
    (proc_handle_con con).con.proc_packet_list = con.proc_packet_list ∧
    (run_io_list_multi ((proc_handle_con con).con :: rest)).early
      = (run_io_list_multi rest).early ∧
    (run_io_list_multi ((proc_handle_con con).con :: rest)).cons
      = (run_io_list_multi rest).cons ∧
    (run_io_list_multi ((proc_handle_con con).con :: rest)).sent
      = (run_io_list_multi rest).sent ∧
    (run_io_list_multi ((proc_handle_con con).con :: rest)).freed
      = (proc_handle_con con).con.id :: (run_io_list_multi rest).freed := by
  have hc : proc_handle_con con =
      ⟨{ con with workers := [], clients := [], options_free := true }, true, []⟩ := by
    simp [proc_handle_con, h]
  rw [hc]
  refine ⟨rfl, rfl, rfl, rfl, rfl, rfl, ?_, ?_, ?_, ?_⟩
  all_goals simp [run_io_list_multi]

/-- A dead worker connection with a pending inbound packet, a worker
registration and a client job reference. -/
def deadConEx : gearman_server_con_st :=
  { flushConEx with id := 4, options_dead := true, io_packet_list := [],
                    proc_packet_list := [pktAssign], workers := [1], clients := [2] }

/-- Claim C6 witness: the dead connection deadConEx is torn down and the
next io-ready pass frees it without processing. -/
theorem dead_con_teardown_witness :
    (proc_handle_con deadConEx).con.options_free = true ∧
    (proc_handle_con deadConEx).ran = [] ∧
    (run_io_list_multi [(proc_handle_con deadConEx).con]).freed
      = [(proc_handle_con deadConEx).con.id] ∧
    (run_io_list_multi [(proc_handle_con deadConEx).con]).sent = [] := by
  have h := dead_con_teardown deadConEx [] (by decide)
  refine ⟨h.2.2.1, h.2.2.2.2.1, ?_, ?_⟩
  · rw [h.2.2.2.2.2.2.2.2.2]
    rfl
  · rw [h.2.2.2.2.2.2.2.2.1]
    rfl

/-- Claim C4: the claim states that the processing thread _proc returns at
the start of every outer iteration once proc_shutdown is set, regardless of
proc_wakeup.  The code diverges: with proc_wakeup already true the wait
loop body containing the proc_shutdown check never runs, so the iteration
proceeds into another processing pass instead of returning; the return
fires only when proc_wakeup is false at the check. -/
theorem proc_shutdown_unchecked_when_wakeup :
    proc_wait_check true true = proc_wait_outcome.proceed ∧
    proc_wait_check true true ≠ proc_wait_outcome.exit_thread ∧
    proc_wait_check false true = proc_wait_outcome.exit_thread := by
  decide

/-- Claim C8: a submission whose workload pointer and length disagree - a
non-null pointer with zero length or a null pointer with non-zero length -
fails with GEARMAN_INVALID_ARGUMENT, creates no task and leaves the client
model unchanged. -/
theorem add_task_bad_workload (m : client_model) (function_name : String)
    (workload_is_null : Bool) (workload_size : Nat)
    (h : (workload_is_null = false ∧ workload_size = 0) ∨
         (workload_is_null = true ∧ 0 < workload_size)) :
    gearman_client_add_task m function_name workload_is_null workload_size
      = (GEARMAN_INVALID_ARGUMENT, none, m) := by
  rcases h with ⟨rfl, rfl⟩ | ⟨rfl, hpos⟩
  · by_cases hf : function_name.isEmpty <;>
      simp [gearman_client_add_task, hf]
  · have h0 : ¬ workload_size = 0 := by omega
    by_cases hf : function_name.isEmpty <;>
      simp [gearman_client_add_task, hf, h0]

/-- Claim C8 witness: the two mismatches of the bad-workload test - a
non-null "fail" workload of length 0, and a null workload of length 5 -
both fail with invalid-argument against the empty client model. -/
theorem add_task_bad_workload_witness :
    gearman_client_add_task ⟨[]⟩ "f" false 0 = (GEARMAN_INVALID_ARGUMENT, none, ⟨[]⟩) ∧
    gearman_client_add_task ⟨[]⟩ "f" true 5 = (GEARMAN_INVALID_ARGUMENT, none, ⟨[]⟩) :=
  ⟨add_task_bad_workload ⟨[]⟩ "f" false 0 (Or.inl ⟨rfl, rfl⟩),
   add_task_bad_workload ⟨[]⟩ "f" true 5 (Or.inr ⟨rfl, by omega⟩)⟩

/-- Claim C9: the claim states that the low-background test submits through
gearman_client_add_task_low_background.  The code diverges: the submission
call of gearman_client_add_task_low_background_test (src/tests/task.cc:230)
invokes gearman_client_add_task_high_background - the same entry point as
the high-background test - and not the low-background entry point. -/
theorem low_background_test_uses_high_entry :
    low_background_test_entry = submit_entry.add_task_high_background ∧
    low_background_test_entry = high_background_test_entry ∧
    low_background_test_entry ≠ submit_entry.add_task_low_background := by
  decide
